import Mathlib

/-!
Shallow embedding of the parallel query iteration core of
`crates/bevy_ecs/src/query/par_iter.rs`, together with spec-modelled
definitions for the collaborators that file uses but this repository
snapshot does not include (`BatchingStrategy::calc_batch_size` from
`bevy_ecs::batching`, the sequential query iterator, and the
`par_*_fold_init_unchecked_manual` dispatch helpers on `QueryState`).
-/

namespace BevyParIter

/-- Modelled from the spec: `BatchingStrategy` (from `bevy_ecs::batching`,
not included in this snapshot).  Configuration with batch-size limits
(a minimum, and an optional maximum where `none` means unbounded), a
positive `batches_per_thread`, and an optional explicit batch-size
override that skips estimation entirely. -/
structure BatchingStrategy where
  batchSizeOverride : Option Nat
  minLimit : Nat
  maxLimit : Option Nat
  batchesPerThread : Nat
  deriving Repr, DecidableEq

/-- Modelled from the spec: the arithmetic of
`BatchingStrategy::calc_batch_size` when no override is set:
`max(min_limit, min(max_limit_or_unbounded, ceil(max_items / (thread_count * batches_per_thread))))`. -/
def calcBatchSizeVal (bs : BatchingStrategy) (maxItems threadCount : Nat) : Nat :=
  let batches := threadCount * bs.batchesPerThread
  let raw := (maxItems + batches - 1) / batches
  Nat.max bs.minLimit (match bs.maxLimit with
    | some m => Nat.min m raw
    | none => raw)

/-- Modelled from the spec: `BatchingStrategy::calc_batch_size`
(`bevy_ecs::batching`, not included in this snapshot).  The max-items
supplier is modelled as a state-passing computation `σ → Nat × σ` so
that its invocations are observable: with an override set the supplier
is not applied and the state is returned unchanged; otherwise it is
applied exactly once, lazily. -/
def calcBatchSize {σ : Type} (bs : BatchingStrategy)
    (maxItemsSupplier : σ → Nat × σ) (threadCount : Nat) (s : σ) : Nat × σ :=
  match bs.batchSizeOverride with
  | some n => (n, s)
  | none =>
      let r := maxItemsSupplier s
      (calcBatchSizeVal bs r.1 threadCount, r.2)

/-- The component storage a query can see: per-table and per-archetype
lists of the query items of the entities stored there, in slot order.
`entity_count()` of a table (resp. `len()` of an archetype) is the
length of its list. -/
structure WorldModel (α : Type) where
  tables : List (List α)
  archetypes : List (List α)

/-- `QueryState`'s fields used by `par_iter.rs`: the cached
`matched_storage_ids` (table ids when `is_dense`, archetype ids
otherwise) and the `is_dense` flag. -/
structure QueryStateModel where
  matchedStorageIds : List Nat
  isDense : Bool

/-- The entity count of one matched storage chunk, as read by
`QueryParIter::get_batch_size`: dense queries read
`tables[id.table_id].entity_count()`, sparse ones
`archetypes[id.archetype_id].len()`. -/
def chunkCount {α : Type} (w : WorldModel α) (st : QueryStateModel) (id : Nat) : Nat :=
  if st.isDense then (w.tables.getD id []).length
  else (w.archetypes.getD id []).length

/-- The `max_items` closure of `QueryParIter::get_batch_size`
(par_iter.rs lines 134-152): the maximum entity count over the matched
storage chunks, `0` when there are none (`.max()` yields `None`,
`.unwrap_or(0)`). -/
def queryMaxItems {α : Type} (w : WorldModel α) (st : QueryStateModel) : Nat :=
  ((st.matchedStorageIds.map (chunkCount w st)).max?).getD 0

/-- Modelled from the spec: the items of one matched chunk as visited by
the sequential query core, in slot order. -/
def chunkItems {α : Type} (w : WorldModel α) (st : QueryStateModel) (id : Nat) : List α :=
  if st.isDense then w.tables.getD id []
  else w.archetypes.getD id []

/-- Modelled from the spec: the sequence of items produced by
`query_unchecked_manual_with_ticks(..).into_iter()` — a full-storage
scan visiting matched chunks in cached order and slots within a chunk
in order (the sequential query core is not included in this snapshot). -/
def seqItems {α : Type} (w : WorldModel α) (st : QueryStateModel) : List α :=
  (st.matchedStorageIds.map (chunkItems w st)).flatten

/-- `QueryParIter` (par_iter.rs lines 16-22): the world, query state,
tick pair and batching strategy. -/
structure QueryParIter (α : Type) where
  world : WorldModel α
  state : QueryStateModel
  lastRun : Nat
  thisRun : Nat
  batchingStrategy : BatchingStrategy

/-- `QueryParIter::get_batch_size` (par_iter.rs lines 132-155):
`calc_batch_size` over the lazy `max_items` closure, cast `as u32`
(hence reduced modulo `2^32`). -/
def QueryParIter.getBatchSize {α : Type} (q : QueryParIter α) (threadCount : Nat) : Nat :=
  (calcBatchSize q.batchingStrategy (fun s : Unit => (queryMaxItems q.world q.state, s))
    threadCount ()).1 % 2 ^ 32

/-- Fuel-driven worker for `chunkList`; `fuel = xs.length` always
suffices when `n ≠ 0`, and the fuel only makes the recursion
structural. -/
def chunkListAux {α : Type} (n : Nat) : Nat → List α → List (List α)
  | _, [] => []
  | 0, _ :: _ => []
  | fuel + 1, x :: xs => (x :: xs).take n :: chunkListAux n fuel ((x :: xs).drop n)

/-- Contiguous partition of a list into pieces of at most `n` elements,
in order; the spec's step 3 (split a large chunk, coalesce small ones,
no batch exceeds `batch_size` entities). -/
def chunkList {α : Type} (n : Nat) (xs : List α) : List (List α) :=
  if n = 0 then [] else chunkListAux n xs.length xs

/-- Which branch of `for_each_init` executed. -/
inductive ExecPath where
  | sequential
  | parallel
  deriving Repr, DecidableEq

/-- Observable trace of one `for_each_init` call: the branch taken, how
many times `init` was called, the batch size handed to the dispatch
helper (parallel branch only), the items `fold_fn` was applied to, and
the per-task final accumulators. -/
structure ExecTrace (T α : Type) where
  path : ExecPath
  initCalls : Nat
  dispatchBatchSize : Option Nat
  visited : List α
  accs : List T

/-- `QueryParIter::for_each_init` (par_iter.rs lines 77-130),
multi-threaded build: with `thread_count <= 1` a single `init()` and a
single sequential fold; otherwise batch size
`get_batch_size(thread_count).max(1)` and one task per batch, each
folding `func` from a fresh `init()` over its batch
(`par_fold_init_unchecked_manual` is modelled from the spec: it
partitions the matched items into contiguous batches of at most
`batch_size` entities). -/
def QueryParIter.forEachInit {α T : Type} (q : QueryParIter α) (threadCount : Nat)
    (init : Unit → T) (func : T → α → T) : ExecTrace T α :=
  if threadCount ≤ 1 then
    { path := .sequential
      initCalls := 1
      dispatchBatchSize := none
      visited := seqItems q.world q.state
      accs := [(seqItems q.world q.state).foldl func (init ())] }
  else
    let batchSize := Nat.max (q.getBatchSize threadCount) 1
    let batches := chunkList batchSize (seqItems q.world q.state)
    { path := .parallel
      initCalls := batches.length
      dispatchBatchSize := some batchSize
      visited := batches.flatten
      accs := batches.map fun b => b.foldl func (init ()) }

/-- `QueryParManyIter` (par_iter.rs lines 164-171): world, query state,
an entity list, tick pair and batching strategy.  `itemFor` is modelled
from the spec: the restricted scan's per-entity lookup — `some` item
when the entity matches the query's filter, `none` when it is silently
skipped. -/
structure QueryParManyIter (E α : Type) where
  state : QueryStateModel
  itemFor : E → Option α
  entityList : List E
  lastRun : Nat
  thisRun : Nat
  batchingStrategy : BatchingStrategy

/-- `QueryParManyIter::get_batch_size` (par_iter.rs lines 304-309):
`calc_batch_size(|| self.entity_list.len(), thread_count) as u32`. -/
def QueryParManyIter.getBatchSize {E α : Type} (q : QueryParManyIter E α)
    (threadCount : Nat) : Nat :=
  (calcBatchSize q.batchingStrategy (fun s : Unit => (q.entityList.length, s))
    threadCount ()).1 % 2 ^ 32

/-- The items visited by `iter_many_inner` on an entity list: input
order preserved, non-matching entities silently skipped (sequential
query core, modelled from the spec). -/
def manySeqItems {E α : Type} (q : QueryParManyIter E α) : List α :=
  q.entityList.filterMap q.itemFor

/-- `QueryParManyIter::for_each_init` (par_iter.rs lines 248-302),
multi-threaded build: `thread_count <= 1` falls back to one `init()`
and one fold over `iter_many_inner`; otherwise batch size
`get_batch_size(thread_count).max(1)` and one task per batch of the
entity list (`par_many_fold_init_unchecked_manual` is modelled from the
spec: batches are drawn directly from the input identifier list by
index). -/
def QueryParManyIter.forEachInit {E α T : Type} (q : QueryParManyIter E α)
    (threadCount : Nat) (init : Unit → T) (func : T → α → T) : ExecTrace T α :=
  if threadCount ≤ 1 then
    { path := .sequential
      initCalls := 1
      dispatchBatchSize := none
      visited := manySeqItems q
      accs := [(manySeqItems q).foldl func (init ())] }
  else
    let batchSize := Nat.max (q.getBatchSize threadCount) 1
    let batches := chunkList batchSize q.entityList
    { path := .parallel
      initCalls := batches.length
      dispatchBatchSize := some batchSize
      visited := (batches.map fun b => b.filterMap q.itemFor).flatten
      accs := batches.map fun b => (b.filterMap q.itemFor).foldl func (init ()) }

/-- `QueryParManyUniqueIter` (par_iter.rs lines 318-326): like
`QueryParManyIter` but over a `UniqueEntityEquivalentVec`; uniqueness
of the list is carried as a hypothesis where a claim needs it. -/
structure QueryParManyUniqueIter (E α : Type) where
  state : QueryStateModel
  itemFor : E → Option α
  entityList : List E
  lastRun : Nat
  thisRun : Nat
  batchingStrategy : BatchingStrategy

/-- `QueryParManyUniqueIter::get_batch_size` (par_iter.rs lines
459-464): `calc_batch_size(|| self.entity_list.len(), thread_count) as u32`. -/
def QueryParManyUniqueIter.getBatchSize {E α : Type} (q : QueryParManyUniqueIter E α)
    (threadCount : Nat) : Nat :=
  (calcBatchSize q.batchingStrategy (fun s : Unit => (q.entityList.length, s))
    threadCount ()).1 % 2 ^ 32

/-- The items visited by `iter_many_unique_inner` (sequential query
core, modelled from the spec): input order preserved, non-matching
entities skipped. -/
def manyUniqueSeqItems {E α : Type} (q : QueryParManyUniqueIter E α) : List α :=
  q.entityList.filterMap q.itemFor

/-- `QueryParManyUniqueIter::for_each_init` (par_iter.rs lines 403-457),
multi-threaded build; `par_many_unique_fold_init_unchecked_manual` is
modelled from the spec: batches drawn from the input list by index. -/
def QueryParManyUniqueIter.forEachInit {E α T : Type} (q : QueryParManyUniqueIter E α)
    (threadCount : Nat) (init : Unit → T) (func : T → α → T) : ExecTrace T α :=
  if threadCount ≤ 1 then
    { path := .sequential
      initCalls := 1
      dispatchBatchSize := none
      visited := manyUniqueSeqItems q
      accs := [(manyUniqueSeqItems q).foldl func (init ())] }
  else
    let batchSize := Nat.max (q.getBatchSize threadCount) 1
    let batches := chunkList batchSize q.entityList
    { path := .parallel
      initCalls := batches.length
      dispatchBatchSize := some batchSize
      visited := (batches.map fun b => b.filterMap q.itemFor).flatten
      accs := batches.map fun b => (b.filterMap q.itemFor).foldl func (init ()) }

/-- The query-data access mode, abstracting the `QueryData` /
`ReadOnlyQueryData` trait distinction: `readOnly = true` models a `D`
that also implements `ReadOnlyQueryData`. -/
structure QueryDataModel where
  readOnly : Bool
  deriving Repr, DecidableEq

/-- From the source (par_iter.rs lines 173-175): the `impl` block that
declares `QueryParManyIter::{for_each, for_each_init}` is
`impl<'w, 's, D: ReadOnlyQueryData, ...>` — those operations exist only
for read-only query data. -/
def manyForEachAvailable (d : QueryDataModel) : Prop := d.readOnly = true

/-- From the source (par_iter.rs lines 328-330): the `impl` block that
declares `QueryParManyUniqueIter::{for_each, for_each_init}` is
`impl<'w, 's, D: QueryData, ...>` — available for any query data,
including mutable. -/
def manyUniqueForEachAvailable (_d : QueryDataModel) : Prop := True

instance (d : QueryDataModel) : Decidable (manyForEachAvailable d) := by
  unfold manyForEachAvailable; infer_instance

instance (d : QueryDataModel) : Decidable (manyUniqueForEachAvailable d) := by
  unfold manyUniqueForEachAvailable; infer_instance

/-! Concrete fixtures used by the witnesses. -/

/-- A small world: two tables of one and two entities, one archetype. -/
def sampleWorld : WorldModel Nat := ⟨[[10], [20, 30]], [[7]]⟩

/-- A dense query state matching both tables of `sampleWorld`. -/
def sampleState : QueryStateModel := ⟨[0, 1], true⟩

/-- The default batching strategy: no override, unbounded limits, one
batch per thread. -/
def defaultStrategy : BatchingStrategy := ⟨none, 0, none, 1⟩

/-- A parallel query iterator over `sampleWorld`. -/
def sampleQ : QueryParIter Nat := ⟨sampleWorld, sampleState, 0, 0, defaultStrategy⟩

/-- A parallel query iterator with no matched chunks. -/
def emptyQ : QueryParIter Nat := ⟨sampleWorld, ⟨[], true⟩, 0, 0, defaultStrategy⟩

/-- An entity-list iterator over entities `0, 1, 2`, all matching. -/
def sampleManyQ : QueryParManyIter Nat Nat :=
  ⟨sampleState, fun e => if e < 3 then some e else none, [0, 1, 2], 0, 0, defaultStrategy⟩

/-- An entity-list iterator with an empty list. -/
def emptyManyQ : QueryParManyIter Nat Nat :=
  ⟨sampleState, fun e => if e < 3 then some e else none, [], 0, 0, defaultStrategy⟩

/-- A unique-entity-list iterator over entities `0, 1, 2`. -/
def sampleManyUniqueQ : QueryParManyUniqueIter Nat Nat :=
  ⟨sampleState, fun e => if e < 3 then some e else none, [0, 1, 2], 0, 0, defaultStrategy⟩

/-- A unique-entity-list iterator with an empty list. -/
def emptyManyUniqueQ : QueryParManyUniqueIter Nat Nat :=
  ⟨sampleState, fun e => if e < 3 then some e else none, [], 0, 0, defaultStrategy⟩

/-- An entity-list iterator differing from `sampleManyQ` in state,
lookup, list contents and ticks, but with the same list length and
strategy. -/
def altManyQ : QueryParManyIter Nat Nat :=
  ⟨⟨[5], false⟩, fun _ => none, [9, 9, 9], 3, 4, defaultStrategy⟩

/-- A unique-entity-list iterator differing from `sampleManyUniqueQ` in
state, lookup, list contents and ticks, but with the same list length
and strategy. -/
def altManyUniqueQ : QueryParManyUniqueIter Nat Nat :=
  ⟨⟨[5], false⟩, fun _ => none, [9, 9, 9], 3, 4, defaultStrategy⟩

/-- An entity-list iterator whose strategy overrides the batch size to
`2^32`, exercising the `as u32` truncation. -/
def overflowManyQ : QueryParManyIter Nat Nat :=
  ⟨sampleState, fun e => if e < 3 then some e else none, [0, 1, 2], 0, 0,
    ⟨some (2 ^ 32), 0, none, 1⟩⟩

/-! Helper lemmas. -/

theorem chunkListAux_flatten {α : Type} (n : Nat) (hn : n ≠ 0) :
    ∀ (fuel : Nat) (xs : List α), xs.length ≤ fuel →
      (chunkListAux n fuel xs).flatten = xs := by
  intro fuel
  induction fuel with
  | zero =>
    intro xs hx
    cases xs with
    | nil => rfl
    | cons x xs => simp at hx
  | succ fuel ih =>
    intro xs hx
    cases xs with
    | nil => rfl
    | cons x xs =>
      show ((x :: xs).take n :: chunkListAux n fuel ((x :: xs).drop n)).flatten = x :: xs
      rw [List.flatten_cons,
        ih ((x :: xs).drop n)
          (by simp only [List.length_drop, List.length_cons] at hx ⊢; omega),
        List.take_append_drop]

theorem chunkList_flatten {α : Type} (n : Nat) (hn : n ≠ 0) (xs : List α) :
    (chunkList n xs).flatten = xs := by
  rw [chunkList, if_neg hn]
  exact chunkListAux_flatten n hn xs.length xs (Nat.le_refl _)

theorem flatten_map_filterMap {α β : Type} (f : α → Option β) (ls : List (List α)) :
    (ls.map fun b => b.filterMap f).flatten = ls.flatten.filterMap f := by
  induction ls with
  | nil => rfl
  | cons b bs ih =>
    rw [List.map_cons, List.flatten_cons, List.flatten_cons, List.filterMap_append, ih]

/-! Claim theorems. -/

/-- C5: without an explicit override, `calc_batch_size` computes
`max(min_limit, min(max_limit_or_unbounded, ceil(max_items / (thread_count * batches_per_thread))))`
— the quotient below is the exact ceiling: the least `q` with
`max_items ≤ thread_count * batches_per_thread * q` — and in particular
with `batches_per_thread = 1`, unbounded limits, `thread_count = 4` and
`max_items = 100` it returns `25`. -/
theorem c5_calc_batch_size_formula (bs : BatchingStrategy) (m tc : Nat)
    (hover : bs.batchSizeOverride = none) (hb : 0 < tc * bs.batchesPerThread) :
    (∃ q, m ≤ tc * bs.batchesPerThread * q
        ∧ (∀ k, m ≤ tc * bs.batchesPerThread * k → q ≤ k)
        ∧ (calcBatchSize bs (fun s : Unit => (m, s)) tc ()).1
            = Nat.max bs.minLimit (match bs.maxLimit with
                | some M => Nat.min M q
                | none => q))
    ∧ (calcBatchSize ⟨none, 0, none, 1⟩ (fun s : Unit => (100, s)) 4 ()).1 = 25 := by
  constructor
  · refine ⟨(m + tc * bs.batchesPerThread - 1) / (tc * bs.batchesPerThread), ?_, ?_, ?_⟩
    · have h := (Nat.div_le_iff_le_mul_add_pred hb).mp
        (Nat.le_refl ((m + tc * bs.batchesPerThread - 1) / (tc * bs.batchesPerThread)))
      omega
    · intro k hk
      exact (Nat.div_le_iff_le_mul_add_pred hb).mpr (by omega)
    · simp only [calcBatchSize, calcBatchSizeVal, hover]
  · rfl

/-- C5 witness: the theorem at the spec's concrete example. -/
theorem c5_witness :
    (calcBatchSize ⟨none, 0, none, 1⟩ (fun s : Unit => (100, s)) 4 ()).1 = 25 :=
  (c5_calc_batch_size_formula ⟨none, 0, none, 1⟩ 100 4 rfl (by decide)).2

/-- C6: with an explicit batch-size override, `calc_batch_size` returns
the override unchanged for every supplier, thread count and supplier
state — the result and the state are both independent of the supplier,
so it is never invoked — and in general the final supplier state is
either the initial state or the state after exactly one invocation: the
supplier is applied at most once, only when estimation is needed. -/
theorem c6_override_skips_supplier {σ : Type} (bs : BatchingStrategy)
    (f : σ → Nat × σ) (tc : Nat) (s : σ) :
    (∀ o, bs.batchSizeOverride = some o → calcBatchSize bs f tc s = (o, s))
    ∧ ((calcBatchSize bs f tc s).2 = s ∨ (calcBatchSize bs f tc s).2 = (f s).2) := by
  constructor
  · intro o ho
    simp [calcBatchSize, ho]
  · cases h : bs.batchSizeOverride with
    | some o =>
      left
      simp [calcBatchSize, h]
    | none =>
      right
      simp [calcBatchSize, h]

/-- C6 witness: a counting supplier; with the override set the counter
stays `0`, and without the override it is bumped at most once. -/
theorem c6_witness :
    calcBatchSize ⟨some 7, 0, none, 1⟩ (fun n : Nat => (100, n + 1)) 4 0 = (7, 0)
    ∧ ((calcBatchSize ⟨none, 0, none, 1⟩ (fun n : Nat => (100, n + 1)) 4 0).2 = 0
        ∨ (calcBatchSize ⟨none, 0, none, 1⟩ (fun n : Nat => (100, n + 1)) 4 0).2
            = ((fun n : Nat => (100, n + 1)) 0).2) :=
  ⟨(c6_override_skips_supplier ⟨some 7, 0, none, 1⟩ (fun n => (100, n + 1)) 4 0).1 7 rfl,
    (c6_override_skips_supplier ⟨none, 0, none, 1⟩ (fun n => (100, n + 1)) 4 0).2⟩

/-- C3: the `max_items` estimate `QueryParIter::get_batch_size` hands to
the batching strategy is the largest single matched-chunk entity count —
it bounds every matched chunk's count, is attained by some matched chunk
when any exist, is the maximum over matched table entity counts when the
state is dense and over matched archetype lengths otherwise, is `0` when
there are no matched chunks, and (absent an override) is exactly the
value the strategy's formula is applied to. -/
theorem c3_max_items_is_chunk_max {α : Type} (q : QueryParIter α) (threadCount : Nat) :
    (∀ id ∈ q.state.matchedStorageIds,
        chunkCount q.world q.state id ≤ queryMaxItems q.world q.state)
    ∧ (q.state.matchedStorageIds ≠ [] →
        ∃ id ∈ q.state.matchedStorageIds,
          queryMaxItems q.world q.state = chunkCount q.world q.state id)
    ∧ (q.state.matchedStorageIds = [] → queryMaxItems q.world q.state = 0)
    ∧ (q.state.isDense = true →
        queryMaxItems q.world q.state
          = ((q.state.matchedStorageIds.map fun id =>
              (q.world.tables.getD id []).length).max?).getD 0)
    ∧ (q.state.isDense = false →
        queryMaxItems q.world q.state
          = ((q.state.matchedStorageIds.map fun id =>
              (q.world.archetypes.getD id []).length).max?).getD 0)
    ∧ (q.batchingStrategy.batchSizeOverride = none →
        q.getBatchSize threadCount
          = calcBatchSizeVal q.batchingStrategy (queryMaxItems q.world q.state)
              threadCount % 2 ^ 32) := by
  refine ⟨?_, ?_, ?_, ?_, ?_, ?_⟩
  · intro id hid
    cases hmax : (q.state.matchedStorageIds.map (chunkCount q.world q.state)).max? with
    | none =>
      have hnil := List.max?_eq_none_iff.mp hmax
      rw [List.map_eq_nil_iff] at hnil
      rw [hnil] at hid
      exact absurd hid (List.not_mem_nil id)
    | some a =>
      have := (List.max?_eq_some_iff'.mp hmax).2 _
        (List.mem_map_of_mem (chunkCount q.world q.state) hid)
      simpa [queryMaxItems, hmax] using this
  · intro hne
    cases hmax : (q.state.matchedStorageIds.map (chunkCount q.world q.state)).max? with
    | none =>
      have := List.max?_eq_none_iff.mp hmax
      simp [List.map_eq_nil_iff] at this
      exact absurd this hne
    | some a =>
      have hmem := (List.max?_eq_some_iff'.mp hmax).1
      rcases List.mem_map.mp hmem with ⟨id, hid, heq⟩
      exact ⟨id, hid, by simp [queryMaxItems, hmax, heq]⟩
  · intro h
    simp [queryMaxItems, h]
  · intro h
    have hfun : chunkCount q.world q.state
        = fun id => (q.world.tables.getD id []).length := by
      funext id
      simp [chunkCount, h]
    simp only [queryMaxItems, hfun]
  · intro h
    have hfun : chunkCount q.world q.state
        = fun id => (q.world.archetypes.getD id []).length := by
      funext id
      simp [chunkCount, h]
    simp only [queryMaxItems, hfun]
  · intro h
    simp [QueryParIter.getBatchSize, calcBatchSize, h]

/-- C3 witness: on the sample query the estimate is attained by a
matched chunk (the two-entity table). -/
theorem c3_witness :
    ∃ id ∈ sampleQ.state.matchedStorageIds,
      queryMaxItems sampleQ.world sampleQ.state
        = chunkCount sampleQ.world sampleQ.state id :=
  (c3_max_items_is_chunk_max sampleQ 4).2.1 (by decide)

/-- C7: for both entity-list variants the batch size is a function of
the batching strategy, the entity-list length and the thread count
alone: two iterators agreeing on those — however much their query
state, per-entity lookup, tick pairs or even list elements differ — get
the same batch size. -/
theorem c7_many_batch_size_from_list_len {E₁ E₂ α₁ α₂ : Type}
    (q₁ : QueryParManyIter E₁ α₁) (q₂ : QueryParManyIter E₂ α₂)
    (u₁ : QueryParManyUniqueIter E₁ α₁) (u₂ : QueryParManyUniqueIter E₂ α₂)
    (tc : Nat)
    (hqs : q₁.batchingStrategy = q₂.batchingStrategy)
    (hql : q₁.entityList.length = q₂.entityList.length)
    (hus : u₁.batchingStrategy = u₂.batchingStrategy)
    (hul : u₁.entityList.length = u₂.entityList.length) :
    q₁.getBatchSize tc = q₂.getBatchSize tc
    ∧ u₁.getBatchSize tc = u₂.getBatchSize tc := by
  constructor
  · simp [QueryParManyIter.getBatchSize, hqs, hql]
  · simp [QueryParManyUniqueIter.getBatchSize, hus, hul]

/-- C7 witness: the sample list iterators against variants with a
different state, lookup and list contents but the same length. -/
theorem c7_witness :
    sampleManyQ.getBatchSize 2 = altManyQ.getBatchSize 2
    ∧ sampleManyUniqueQ.getBatchSize 2 = altManyUniqueQ.getBatchSize 2 :=
  c7_many_batch_size_from_list_len sampleManyQ altManyQ
    sampleManyUniqueQ altManyUniqueQ 2 rfl rfl rfl rfl

/-- C10: `get_batch_size` truncates the `usize` result of
`calc_batch_size` to 32 bits (`as u32`) in all three iterators: the
returned batch size is always `< 2^32`, equals the computed value
modulo `2^32`, and a computed value of exactly `2^32` becomes `0`
before the caller's `max(1)` clamp. -/
theorem c10_batch_size_u32_truncation {α E : Type} (q : QueryParIter α)
    (qm : QueryParManyIter E α) (qu : QueryParManyUniqueIter E α) (tc : Nat) :
    q.getBatchSize tc < 2 ^ 32
    ∧ qm.getBatchSize tc < 2 ^ 32
    ∧ qu.getBatchSize tc < 2 ^ 32
    ∧ q.getBatchSize tc
        = (calcBatchSize q.batchingStrategy
            (fun s : Unit => (queryMaxItems q.world q.state, s)) tc ()).1 % 2 ^ 32
    ∧ qm.getBatchSize tc
        = (calcBatchSize qm.batchingStrategy
            (fun s : Unit => (qm.entityList.length, s)) tc ()).1 % 2 ^ 32
    ∧ qu.getBatchSize tc
        = (calcBatchSize qu.batchingStrategy
            (fun s : Unit => (qu.entityList.length, s)) tc ()).1 % 2 ^ 32
    ∧ ((calcBatchSize qm.batchingStrategy
          (fun s : Unit => (qm.entityList.length, s)) tc ()).1 = 2 ^ 32 →
        qm.getBatchSize tc = 0) := by
  refine ⟨Nat.mod_lt _ (by norm_num), Nat.mod_lt _ (by norm_num),
    Nat.mod_lt _ (by norm_num), rfl, rfl, rfl, ?_⟩
  intro h
  simp [QueryParManyIter.getBatchSize, h]

/-- C10 witness: an iterator whose strategy computes exactly `2^32`
gets batch size `0` from `get_batch_size`. -/
theorem c10_witness : overflowManyQ.getBatchSize 2 = 0 :=
  (c10_batch_size_u32_truncation sampleQ overflowManyQ sampleManyUniqueQ 2).2.2.2.2.2.2
    (by decide)

/-- C4: on the parallel path (thread count `> 1`) of all three
iterators, the batch size handed to the dispatch helper is at least 1,
whatever `calc_batch_size` computed (the caller clamps with
`.max(1)`). -/
theorem c4_dispatch_batch_size_pos {α E T : Type} (q : QueryParIter α)
    (qm : QueryParManyIter E α) (qu : QueryParManyUniqueIter E α)
    (tc : Nat) (htc : 2 ≤ tc) (init : Unit → T) (func : T → α → T) :
    (∃ b, (q.forEachInit tc init func).dispatchBatchSize = some b ∧ 1 ≤ b)
    ∧ (∃ b, (qm.forEachInit tc init func).dispatchBatchSize = some b ∧ 1 ≤ b)
    ∧ (∃ b, (qu.forEachInit tc init func).dispatchBatchSize = some b ∧ 1 ≤ b) := by
  have hnot : ¬ tc ≤ 1 := by omega
  refine ⟨⟨Nat.max (q.getBatchSize tc) 1, ?_, Nat.le_max_right _ _⟩,
    ⟨Nat.max (qm.getBatchSize tc) 1, ?_, Nat.le_max_right _ _⟩,
    ⟨Nat.max (qu.getBatchSize tc) 1, ?_, Nat.le_max_right _ _⟩⟩
  · simp [QueryParIter.forEachInit, hnot]
  · simp [QueryParManyIter.forEachInit, hnot]
  · simp [QueryParManyUniqueIter.forEachInit, hnot]

/-- C4 witness: with no matched chunks (strategy computes 0) and with an
empty entity list the dispatched batch size is still 1. -/
theorem c4_witness :
    (∃ b, (emptyQ.forEachInit 2 (fun _ => 0) (fun a b => a + b)).dispatchBatchSize
        = some b ∧ 1 ≤ b)
    ∧ (∃ b, (emptyManyQ.forEachInit 2 (fun _ => 0) (fun a b => a + b)).dispatchBatchSize
        = some b ∧ 1 ≤ b)
    ∧ (∃ b, (emptyManyUniqueQ.forEachInit 2 (fun _ => 0) (fun a b => a + b)).dispatchBatchSize
        = some b ∧ 1 ≤ b) :=
  c4_dispatch_batch_size_pos emptyQ emptyManyQ emptyManyUniqueQ 2 (by decide)
    (fun _ => 0) (fun a b => a + b)

/-- C2: with a worker pool of at most one thread, `for_each_init` is
fully sequential in all three iterators: the sequential branch runs,
`init` is called exactly once, the single accumulator is the fold of
`fold_fn` over the sequential iterator, and the whole trace is
independent of the batching strategy — neither the strategy nor the
max-items supplier is consulted. -/
theorem c2_single_thread_sequential {α E T : Type} (q : QueryParIter α)
    (qm : QueryParManyIter E α) (qu : QueryParManyUniqueIter E α)
    (tc : Nat) (htc : tc ≤ 1) (init : Unit → T) (func : T → α → T) :
    ((q.forEachInit tc init func).path = ExecPath.sequential
      ∧ (q.forEachInit tc init func).initCalls = 1
      ∧ (q.forEachInit tc init func).accs
          = [(seqItems q.world q.state).foldl func (init ())]
      ∧ ∀ bs, ({ q with batchingStrategy := bs }).forEachInit tc init func
          = q.forEachInit tc init func)
    ∧ ((qm.forEachInit tc init func).path = ExecPath.sequential
      ∧ (qm.forEachInit tc init func).initCalls = 1
      ∧ (qm.forEachInit tc init func).accs
          = [(manySeqItems qm).foldl func (init ())]
      ∧ ∀ bs, ({ qm with batchingStrategy := bs }).forEachInit tc init func
          = qm.forEachInit tc init func)
    ∧ ((qu.forEachInit tc init func).path = ExecPath.sequential
      ∧ (qu.forEachInit tc init func).initCalls = 1
      ∧ (qu.forEachInit tc init func).accs
          = [(manyUniqueSeqItems qu).foldl func (init ())]
      ∧ ∀ bs, ({ qu with batchingStrategy := bs }).forEachInit tc init func
          = qu.forEachInit tc init func) := by
  refine ⟨⟨?_, ?_, ?_, ?_⟩, ⟨?_, ?_, ?_, ?_⟩, ⟨?_, ?_, ?_, ?_⟩⟩ <;>
    first
      | simp [QueryParIter.forEachInit, htc]
      | simp [QueryParManyIter.forEachInit, manySeqItems, htc]
      | simp [QueryParManyUniqueIter.forEachInit, manyUniqueSeqItems, htc]

/-- C2 witness: the theorem at the sample iterators with a single
worker thread. -/
theorem c2_witness :
    (sampleQ.forEachInit 1 (fun _ => 0) (fun a b => a + b)).path = ExecPath.sequential
    ∧ (sampleQ.forEachInit 1 (fun _ => 0) (fun a b => a + b)).initCalls = 1
    ∧ (sampleQ.forEachInit 1 (fun _ => 0) (fun a b => a + b)).accs
        = [(seqItems sampleQ.world sampleQ.state).foldl (fun a b => a + b) 0]
    ∧ ∀ bs, ({ sampleQ with batchingStrategy := bs }).forEachInit 1
          (fun _ => 0) (fun a b => a + b)
        = sampleQ.forEachInit 1 (fun _ => 0) (fun a b => a + b) :=
  (c2_single_thread_sequential sampleQ sampleManyQ sampleManyUniqueQ 1 (by decide)
    (fun _ => 0) (fun a b => a + b)).1

/-- C9: empty results are not errors: with no matched chunks the
max-items estimate is `0` (via `unwrap_or(0)`) and `for_each_init`
visits no item, and with an empty entity list both list variants visit
no item — `fold_fn` is applied zero times, on the sequential and the
parallel path alike. -/
theorem c9_empty_zero_iterations {α E T : Type} (q : QueryParIter α)
    (qm : QueryParManyIter E α) (qu : QueryParManyUniqueIter E α)
    (tc : Nat) (init : Unit → T) (func : T → α → T)
    (hq : q.state.matchedStorageIds = [])
    (hm : qm.entityList = []) (hu : qu.entityList = []) :
    queryMaxItems q.world q.state = 0
    ∧ (q.forEachInit tc init func).visited = []
    ∧ (qm.forEachInit tc init func).visited = []
    ∧ (qu.forEachInit tc init func).visited = [] := by
  have hseq : seqItems q.world q.state = [] := by
    simp [seqItems, hq]
  refine ⟨by simp [queryMaxItems, hq], ?_, ?_, ?_⟩
  · by_cases htc : tc ≤ 1 <;>
      simp [QueryParIter.forEachInit, htc, hseq, chunkList, chunkListAux]
  · by_cases htc : tc ≤ 1 <;>
      simp [QueryParManyIter.forEachInit, manySeqItems, htc, hm, chunkList, chunkListAux]
  · by_cases htc : tc ≤ 1 <;>
      simp [QueryParManyUniqueIter.forEachInit, manyUniqueSeqItems, htc, hu,
        chunkList, chunkListAux]

/-- C9 witness: the theorem at the empty fixtures on the parallel
path. -/
theorem c9_witness :
    queryMaxItems emptyQ.world emptyQ.state = 0
    ∧ (emptyQ.forEachInit 2 (fun _ => 0) (fun a b => a + b)).visited = []
    ∧ (emptyManyQ.forEachInit 2 (fun _ => 0) (fun a b => a + b)).visited = []
    ∧ (emptyManyUniqueQ.forEachInit 2 (fun _ => 0) (fun a b => a + b)).visited = [] :=
  c9_empty_zero_iterations emptyQ emptyManyQ emptyManyUniqueQ 2
    (fun _ => 0) (fun a b => a + b) rfl rfl rfl

/-- C1: for a non-empty matching entity set, the multiset of items the
parallel path visits (batched dispatch) equals the multiset the
sequential path visits (a single fold over the sequential iterator, here
the thread-count-1 run of `for_each_init` with the same world, state and
tick pair); only the order may differ. -/
theorem c1_parallel_matches_sequential_multiset {α T : Type} (q : QueryParIter α)
    (tc : Nat) (htc : 2 ≤ tc) (init : Unit → T) (func : T → α → T)
    (hne : seqItems q.world q.state ≠ []) :
    (((q.forEachInit tc init func).visited : List α) : Multiset α)
      = (((q.forEachInit 1 init func).visited : List α) : Multiset α) := by
  have hnot : ¬ tc ≤ 1 := by omega
  have hpar : (q.forEachInit tc init func).visited
      = (chunkList (Nat.max (q.getBatchSize tc) 1) (seqItems q.world q.state)).flatten := by
    simp [QueryParIter.forEachInit, hnot]
  have hseq : (q.forEachInit 1 init func).visited = seqItems q.world q.state := by
    simp [QueryParIter.forEachInit]
  rw [hpar, hseq, chunkList_flatten _ (by simp)]

/-- C1 witness: the sample query at two threads versus one thread. -/
theorem c1_witness :
    (((sampleQ.forEachInit 2 (fun _ => 0) (fun a b => a + b)).visited : List Nat) : Multiset Nat)
      = (((sampleQ.forEachInit 1 (fun _ => 0) (fun a b => a + b)).visited : List Nat) : Multiset Nat) :=
  c1_parallel_matches_sequential_multiset sampleQ 2 (by decide)
    (fun _ => 0) (fun a b => a + b) (by decide)

/-- C8: the non-unique entity-list iterator only offers
`for_each`/`for_each_init` for read-only query data (its `impl` block
requires `D: ReadOnlyQueryData`), so a duplicate-containing entity list
can never hand out concurrent mutable views; the unique variant's
`impl` requires only `D: QueryData` and therefore also admits mutable
query data. -/
theorem c8_many_requires_read_only :
    (∀ d : QueryDataModel, manyForEachAvailable d → d.readOnly = true)
    ∧ ¬ manyForEachAvailable ⟨false⟩
    ∧ manyUniqueForEachAvailable ⟨false⟩
    ∧ manyUniqueForEachAvailable ⟨true⟩ := by
  refine ⟨fun d h => h, ?_, trivial, trivial⟩
  simp [manyForEachAvailable]

/-- C8 witness: read-only query data is accepted by the non-unique
variant. -/
theorem c8_witness : (⟨true⟩ : QueryDataModel).readOnly = true :=
  c8_many_requires_read_only.1 ⟨true⟩ rfl

end BevyParIter
